import Mathlib

/-!
Verification of the signal lifecycle coordinator of splunk-otel-js.

The coordinator (source file `src/unnamed/part_000`) owns a process-wide
running state with at most one live handle per signal (metrics, profiling,
tracing), resolves each signal's enablement from caller options, environment
variables and hard defaults, starts/stops the three external subsystems, and
propagates a meter provider to loaded instrumentations.

Embedding conventions:
* The process environment is a function from variable names to optional raw
  string values, passed explicitly.
* The external subsystem engines are black boxes; starting/stopping them is
  recorded as an event in an event trace, and the opaque handles they return
  are modelled as `Unit` (present/absent is all the coordinator inspects).
* The mutable singleton `running` state is threaded explicitly: `start` and
  `stop` take the current state and return the new one.  State changes only
  through the returned value, so an `Except.error` result leaves the state
  exactly as it was passed (no handle is mutated, no subsystem started).
* JavaScript option bags are association lists from string keys to string
  values; `Object.assign` and the `pick` helper are modelled on those lists.
* Asynchronous completions are modelled by outcome flags: `stop` receives,
  for each subsystem, whether its shutdown completion rejects, and returns
  whether the aggregate `Promise.all` completion resolves.
-/

namespace SplunkOtel

/-- The process environment: maps environment-variable names to their raw
string values (`Option.none` = unset). -/
abbrev Env := String → Option String

/-- Modelled from the spec: `getNonEmptyEnvVar` (in `./utils`, not under
`src/`) reads a named environment variable as a non-empty string; an unset or
empty variable yields absence. -/
def getNonEmptyEnvVar (env : Env) (key : String) : Option String :=
  match env key with
  | Option.none => Option.none
  | some s => if s = "" then Option.none else some s

/-- Lower-casing of a string, written over its character list (the form
`String.toLower` computes). -/
def lowerString (s : String) : String :=
  ⟨s.data.map Char.toLower⟩

/-- Modelled from the spec: `parseEnvBooleanString` (in `./utils`, not under
`src/`) parses a boolean-string ("true"/"false", case-insensitive) into
true/false, and anything else (including absence) into absence. -/
def parseEnvBooleanString : Option String → Option Bool
  | Option.none => Option.none
  | some s =>
    if lowerString s = "true" then some true
    else if lowerString s = "false" then some false
    else Option.none

/-- Modelled from the spec: `getEnvBoolean` (in `./utils`, not under `src/`)
reads a named environment variable as a boolean with a given default. -/
def getEnvBoolean (env : Env) (key : String) (dflt : Bool) : Bool :=
  (parseEnvBooleanString (getNonEmptyEnvVar env key)).getD dflt

/-- The `LogLevel` string union from `./types` (not under `src/`). -/
inductive LogLevel
  | verbose
  | debug
  | info
  | warn
  | error
  | none
  deriving DecidableEq, Repr

/-- The string spelled by a `LogLevel` value (used when the `logLevel` key is
present on the options object viewed as a bag of string values). -/
def logLevelName : LogLevel → String
  | .verbose => "verbose"
  | .debug => "debug"
  | .info => "info"
  | .warn => "warn"
  | .error => "error"
  | .none => "none"

/-- The `DiagLogLevel` severity enum of `@opentelemetry/api`. -/
inductive DiagLogLevel
  | NONE
  | ERROR
  | WARN
  | INFO
  | DEBUG
  | VERBOSE
  | ALL
  deriving DecidableEq, Repr

/-- Modelled from the spec: `toDiagLogLevel` (in `./utils`, not under `src/`)
maps a `LogLevel` name to the severity enum, with a "none" sentinel that
suppresses logging. -/
def toDiagLogLevel : LogLevel → DiagLogLevel
  | .verbose => .VERBOSE
  | .debug => .DEBUG
  | .info => .INFO
  | .warn => .WARN
  | .error => .ERROR
  | .none => .NONE

/-- Modelled from the spec: `parseLogLevel` (in `./utils`, not under `src/`)
parses a log-level name (case-insensitive) into the severity enum, falling
back to the subsystem default (`INFO`) when the value is absent or
unrecognized. -/
def parseLogLevel : Option String → DiagLogLevel
  | Option.none => .INFO
  | some s =>
    if lowerString s = "verbose" then .VERBOSE
    else if lowerString s = "debug" then .DEBUG
    else if lowerString s = "info" then .INFO
    else if lowerString s = "warn" then .WARN
    else if lowerString s = "error" then .ERROR
    else if lowerString s = "none" then .NONE
    else .INFO

/-- A JavaScript option bag: string keys with (here opaque) string values,
in insertion order. -/
abbrev Bag := List (String × String)

/-- Modelled from the spec: `pick` (in `./utils`, not under `src/`) filters a
bag down to an allowed key list. -/
def pick (bag : Bag) (keys : List String) : Bag :=
  bag.filter (fun p => keys.contains p.1)

/-- `Object.assign target src`: every key of `src` overrides the same key of
`target`; keys of `target` not present in `src` are kept. -/
def Bag.assign (target src : Bag) : Bag :=
  target.filter (fun p => (src.find? (fun q => q.1 == p.1)).isNone) ++ src

/-- Modelled from the spec: `assertNoExtraneousProperties` (in `./utils`, not
under `src/`) rejects any key of the bag outside the allowed list; this
returns the offending key if one exists (the source throws on it). -/
def extraneousKey (bag : Bag) (allowed : List String) : Option String :=
  (bag.find? (fun p => !(allowed.contains p.1))).map (fun p => p.1)

/-- A per-signal field of the caller options: absent (`undefined`), `null`, a
boolean, or a signal-specific options object. -/
inductive SignalSetting
  | undef
  | null
  | bool (b : Bool)
  | obj (bag : Bag)
  deriving DecidableEq, Repr

/-- The own enumerable properties a signal setting contributes to
`Object.assign`: an object contributes its bag; `undefined`, `null` and a
boolean primitive contribute nothing. -/
def SignalSetting.bagOf : SignalSetting → Bag
  | .obj bag => bag
  | _ => []

/-- `isSignalEnabled` (source lines 73-79): the caller value if non-nullish,
else the parsed boolean-string environment flag, else the default — fused
with the truthiness test applied at each call site (`if (isSignalEnabled(...))`):
a boolean decides by its value, an options object is truthy hence enabled. -/
def isSignalEnabled (env : Env) (option : SignalSetting) (envVar : String)
    (dflt : Bool) : Bool :=
  match option with
  | .bool b => b
  | .obj _ => true
  | .undef => (parseEnvBooleanString (getNonEmptyEnvVar env envVar)).getD dflt
  | .null => (parseEnvBooleanString (getNonEmptyEnvVar env envVar)).getD dflt

/-- The caller options object (`Partial<Options>`, source lines 50-59).
Top-level keys other than the seven recognized ones are collected in
`extraKeys` together with their values. -/
structure Options where
  accessToken : Option String := Option.none
  endpoint : Option String := Option.none
  serviceName : Option String := Option.none
  logLevel : Option LogLevel := Option.none
  metrics : SignalSetting := .undef
  profiling : SignalSetting := .undef
  tracing : SignalSetting := .undef
  extraKeys : Bag := []
  deriving DecidableEq, Repr

/-- The seven recognized top-level option keys. -/
def recognizedKeys : List String :=
  ["accessToken", "endpoint", "serviceName", "logLevel",
   "metrics", "profiling", "tracing"]

/-- `restOptions` (source line 85): the options object with `metrics`,
`profiling` and `tracing` destructured away, viewed as a bag. -/
def Options.restBag (o : Options) : Bag :=
  (match o.accessToken with
   | some v => [("accessToken", v)]
   | Option.none => []) ++
  (match o.endpoint with
   | some v => [("endpoint", v)]
   | Option.none => []) ++
  (match o.serviceName with
   | some v => [("serviceName", v)]
   | Option.none => []) ++
  (match o.logLevel with
   | some l => [("logLevel", logLevelName l)]
   | Option.none => []) ++
  o.extraKeys

/-- The module-level `running` singleton (source lines 61-71): at most one
opaque live handle per signal, or `Option.none` when absent. -/
structure RunningState where
  metrics : Option Unit
  profiling : Option Unit
  tracing : Option Unit
  deriving DecidableEq, Repr

/-- The initial running state: no handle present. -/
def initialState : RunningState :=
  { metrics := Option.none, profiling := Option.none, tracing := Option.none }

/-- Observable actions performed by `start` and `stop`, in execution order. -/
inductive Event
  | setLogger (level : DiagLogLevel)
  | startProfiling (bag : Bag)
  | startTracing (bag : Bag)
  | startMetrics (bag : Bag)
  | setMeterProvider (instr : Nat) (real : Bool)
  | stopMetrics
  | stopTracing
  | stopProfiling
  deriving DecidableEq, Repr

/-- The two synchronous usage errors `start` can throw. -/
inductive StartError
  | alreadyStarted
  | extraneousProperty (key : String)
  deriving DecidableEq, Repr

/-- External collaborators of the coordinator, treated as black boxes. -/
structure Externals where
  /-- Modelled from the spec: `_setDefaultOptions` of `./profiling` (not under
  `src/`) is a pure function materializing default options from a partial
  profiling option bag; the coordinator inspects only its resolved
  `memoryProfilingEnabled` flag, captured here. -/
  memoryProfilingEnabled : Bag → Bool
  /-- Identifiers of the instrumentations currently returned by
  `getLoadedInstrumentations()` of `./tracing` (not under `src/`). -/
  instrumentations : List Nat

/-- Modelled from the spec: `allowedProfilingOptions` (in `./profiling/types`,
not under `src/`) — the shared identity/transport fields apply to every
signal. -/
def allowedProfilingOptions : List String :=
  ["accessToken", "endpoint", "serviceName"]

/-- Modelled from the spec: `allowedTracingOptions` (in `./tracing/options`,
not under `src/`). -/
def allowedTracingOptions : List String :=
  ["accessToken", "endpoint", "serviceName"]

/-- Modelled from the spec: `allowedMetricsOptions` (in `./metrics`, not under
`src/`). -/
def allowedMetricsOptions : List String :=
  ["accessToken", "endpoint", "serviceName"]

/-- The allowed keys passed to `assertNoExtraneousProperties` (source lines
87-92). -/
def allowedRestKeys : List String :=
  ["accessToken", "endpoint", "serviceName", "logLevel"]

/-- The merged profiling option bag (source lines 104-107):
`Object.assign(pick(restOptions, allowedProfilingOptions), profiling)`. -/
def mergedProfilingBag (o : Options) : Bag :=
  Bag.assign (pick o.restBag allowedProfilingOptions) o.profiling.bagOf

/-- The merged tracing option bag (source line 121). -/
def mergedTracingBag (o : Options) : Bag :=
  Bag.assign (pick o.restBag allowedTracingOptions) o.tracing.bagOf

/-- The merged metrics option bag (source line 133). -/
def mergedMetricsBag (o : Options) : Bag :=
  Bag.assign (pick o.restBag allowedMetricsOptions) o.metrics.bagOf

/-- Log-level resolution (source lines 94-96): the explicit `logLevel` option
if supplied (every `LogLevel` string is truthy), else the level parsed from
the `OTEL_LOG_LEVEL` environment variable. -/
def resolveLogLevel (env : Env) (opts : Options) : DiagLogLevel :=
  match opts.logLevel with
  | some l => toDiagLogLevel l
  | Option.none => parseLogLevel (getNonEmptyEnvVar env "OTEL_LOG_LEVEL")

/-- Resolved profiling enablement (source line 103): caller `profiling`
option, else `SPLUNK_PROFILER_ENABLED`, else hard default `false`. -/
def profilingEnabled (env : Env) (opts : Options) : Bool :=
  isSignalEnabled env opts.profiling "SPLUNK_PROFILER_ENABLED" false

/-- Resolved tracing enablement (source line 119): caller `tracing` option,
else `SPLUNK_TRACING_ENABLED`, else hard default `true`. -/
def tracingEnabled (env : Env) (opts : Options) : Bool :=
  isSignalEnabled env opts.tracing "SPLUNK_TRACING_ENABLED" true

/-- The `metricsEnabledByDefault` flag (source lines 102-117): `false` unless
profiling is enabled and the materialized profiling defaults — computed by
`_setDefaultOptions` on the same merged profiling bag — have memory profiling
enabled. -/
def metricsEnabledByDefault (env : Env) (ext : Externals) (opts : Options) : Bool :=
  profilingEnabled env opts && ext.memoryProfilingEnabled (mergedProfilingBag opts)

/-- Resolved metrics enablement (source lines 125-131): caller `metrics`
option, else `SPLUNK_METRICS_ENABLED`, else the possibly-raised
`metricsEnabledByDefault`. -/
def metricsEnabled (env : Env) (ext : Externals) (opts : Options) : Bool :=
  isSignalEnabled env opts.metrics "SPLUNK_METRICS_ENABLED"
    (metricsEnabledByDefault env ext opts)

/-- Events of a successful `start` before meter-provider propagation: the
optional logger install, then the conditional subsystem starts in source
order — profiling (line 108), tracing (line 120), metrics (line 132). -/
def preMeterEvents (env : Env) (ext : Externals) (opts : Options) : List Event :=
  (if resolveLogLevel env opts = DiagLogLevel.NONE then []
   else [Event.setLogger (resolveLogLevel env opts)]) ++
  (if profilingEnabled env opts then [Event.startProfiling (mergedProfilingBag opts)]
   else []) ++
  (if tracingEnabled env opts then [Event.startTracing (mergedTracingBag opts)]
   else []) ++
  (if metricsEnabled env ext opts then [Event.startMetrics (mergedMetricsBag opts)]
   else [])

/-- The meter-provider propagation events (source lines 137-145): every loaded
instrumentation receives the real provider if
`SPLUNK_INSTRUMENTATION_METRICS_ENABLED` resolves true (default `false`), else
the no-op provider. -/
def meterEvents (env : Env) (ext : Externals) : List Event :=
  ext.instrumentations.map
    (fun i =>
      Event.setMeterProvider i
        (getEnvBoolean env "SPLUNK_INSTRUMENTATION_METRICS_ENABLED" false))

/-- The full event trace of a successful `start`. -/
def startEvents (env : Env) (ext : Externals) (opts : Options) : List Event :=
  preMeterEvents env ext opts ++ meterEvents env ext

/-- The running state after a successful `start`: one handle per signal that
resolved enabled. -/
def startedState (env : Env) (ext : Externals) (opts : Options) : RunningState :=
  { metrics := if metricsEnabled env ext opts then some () else Option.none
    profiling := if profilingEnabled env opts then some () else Option.none
    tracing := if tracingEnabled env opts then some () else Option.none }

/-- Result of a successful `start`: the new running state and the trace of
actions performed, in order. -/
structure StartResult where
  state : RunningState
  events : List Event
  deriving DecidableEq, Repr

/-- `start` (source lines 81-146).  Throws `alreadyStarted` if any handle is
present (line 82), then rejects extraneous top-level keys (lines 85-92), then
resolves the log level and installs the diagnostic logger unless the level is
`NONE` (lines 94-100), then conditionally starts profiling, tracing and
metrics in that order (lines 102-135), then propagates a meter provider to
every loaded instrumentation (lines 137-145). -/
def start (env : Env) (ext : Externals) (st : RunningState) (options : Options) :
    Except StartError StartResult :=
  if st.metrics.isSome || st.profiling.isSome || st.tracing.isSome then
    .error .alreadyStarted
  else
    match extraneousKey options.restBag allowedRestKeys with
    | some key => .error (.extraneousProperty key)
    | Option.none =>
      .ok { state := startedState env ext options
            events := startEvents env ext options }

/-- Whether each subsystem's asynchronous stop completion rejects, supplied by
the environment of a given `stop` call. -/
structure StopOutcomes where
  metricsFails : Bool
  tracingFails : Bool
  profilingFails : Bool
  deriving DecidableEq, Repr

/-- Result of a `stop` call: the new running state (handles cleared before the
aggregate completion settles), the shutdown calls issued in order, and whether
the aggregate `Promise.all` completion resolves. -/
structure StopResult where
  state : RunningState
  events : List Event
  resolved : Bool
  deriving DecidableEq, Repr

/-- `stop` (source lines 162-186).  For each present handle, in the order
metrics, tracing, profiling, issue the subsystem's stop operation, add its
completion to the wait set and clear the handle immediately; return the
aggregate completion, which resolves iff every included completion does. -/
def stop (st : RunningState) (out : StopOutcomes) : StopResult :=
  { state := initialState
    events :=
      (if st.metrics.isSome then [Event.stopMetrics] else []) ++
      (if st.tracing.isSome then [Event.stopTracing] else []) ++
      (if st.profiling.isSome then [Event.stopProfiling] else [])
    resolved :=
      !((st.metrics.isSome && out.metricsFails) ||
        (st.tracing.isSome && out.tracingFails) ||
        (st.profiling.isSome && out.profilingFails)) }

/-! ## Helper lemmas -/

/-- With no extraneous top-level keys, the rest bag only holds recognized
identity/log-level keys, so `assertNoExtraneousProperties` finds nothing. -/
theorem extraneousKey_restBag_clean (opts : Options) (h : opts.extraKeys = []) :
    extraneousKey opts.restBag allowedRestKeys = Option.none := by
  rcases opts with ⟨a, e, s, l, m, p, t, ex⟩
  subst h
  rcases a with _ | a <;> rcases e with _ | e <;> rcases s with _ | s <;>
    rcases l with _ | l <;>
    simp [extraneousKey, Options.restBag, allowedRestKeys, List.find?]

/-- A `start` call from the clean state with no extraneous keys succeeds and
produces the started state and the full event trace. -/
theorem start_ok_of_clean (env : Env) (ext : Externals) (opts : Options)
    (h : extraneousKey opts.restBag allowedRestKeys = Option.none) :
    start env ext initialState opts =
      .ok { state := startedState env ext opts
            events := startEvents env ext opts } := by
  simp [start, initialState, h]

/-- Any successful `start` call produced the started state and the full event
trace (inversion of the two error branches). -/
theorem start_ok_inversion (env : Env) (ext : Externals) (st : RunningState)
    (opts : Options) (r : StartResult) (h : start env ext st opts = .ok r) :
    r = { state := startedState env ext opts
          events := startEvents env ext opts } := by
  unfold start at h
  split at h
  · simp at h
  · split at h
    · simp at h
    · simp only [Except.ok.injEq] at h
      exact h.symm

/-! ## Concrete instances used by witnesses -/

/-- The empty environment: every variable unset. -/
def emptyEnv : Env := fun _ => Option.none

/-- Externals with memory profiling never enabled and no loaded
instrumentations. -/
def noExternals : Externals :=
  { memoryProfilingEnabled := fun _ => false, instrumentations := [] }

/-- An environment where every variable is set to the string "true". -/
def allTrueEnv : Env := fun _ => some "true"

/-- Externals with memory profiling always enabled and one loaded
instrumentation. -/
def memExternals : Externals :=
  { memoryProfilingEnabled := fun _ => true, instrumentations := [7] }

/-- An environment with only `SPLUNK_PROFILER_ENABLED` set, to "true". -/
def profilerEnv : Env :=
  fun k => if k = "SPLUNK_PROFILER_ENABLED" then some "true" else Option.none

/-- An environment with only `SPLUNK_INSTRUMENTATION_METRICS_ENABLED` set, to
"true". -/
def instrEnv : Env :=
  fun k =>
    if k = "SPLUNK_INSTRUMENTATION_METRICS_ENABLED" then some "true"
    else Option.none

/-- A running state with all three handles present. -/
def fullState : RunningState :=
  { metrics := some (), profiling := some (), tracing := some () }

/-! ## Claims -/

/-- C1: if any of the three handles (tracing, metrics, profiling) is already
present when `start` is called, `start` throws the re-entrant
"Splunk APM already started" error.  In this embedding state changes only
through a returned `StartResult`, so the error result means the lifecycle
state is left unchanged: no subsystem is started and no handle is mutated. -/
theorem start_reentrant_error (env : Env) (ext : Externals) (st : RunningState)
    (opts : Options)
    (h : st.metrics.isSome ∨ st.profiling.isSome ∨ st.tracing.isSome) :
    start env ext st opts = .error .alreadyStarted := by
  unfold start
  rcases h with h | h | h <;> simp [h]

/-- Witness for C1: a state with only the metrics handle present makes any
`start` call fail with the re-entrant error. -/
theorem start_reentrant_error_witness :
    start emptyEnv noExternals
      { metrics := some (), profiling := Option.none, tracing := Option.none }
      {} = .error .alreadyStarted :=
  start_reentrant_error emptyEnv noExternals
    { metrics := some (), profiling := Option.none, tracing := Option.none }
    {} (Or.inl rfl)

/-- C10: the re-entrant check precedes option validation — when a handle is
present, `start` throws the re-entrant error even when the options object also
contains unrecognized top-level keys; the unrecognized-option error is never
reached. -/
theorem start_reentrant_precedes_validation (env : Env) (ext : Externals)
    (st : RunningState) (opts : Options)
    (h : st.metrics.isSome ∨ st.profiling.isSome ∨ st.tracing.isSome)
    (_hex : ∃ kv ∈ opts.extraKeys, kv.1 ∉ recognizedKeys) :
    start env ext st opts = .error .alreadyStarted := by
  unfold start
  rcases h with h | h | h <;> simp [h]

/-- Witness for C10: with the tracing handle present and an unrecognized key
`foo` supplied, the error is the re-entrant one, not the extraneous-key
one. -/
theorem start_reentrant_precedes_validation_witness :
    start emptyEnv noExternals
      { metrics := Option.none, profiling := Option.none, tracing := some () }
      { extraKeys := [("foo", "bar")] } = .error .alreadyStarted :=
  start_reentrant_precedes_validation emptyEnv noExternals
    { metrics := Option.none, profiling := Option.none, tracing := some () }
    { extraKeys := [("foo", "bar")] }
    (Or.inr (Or.inr rfl))
    ⟨("foo", "bar"), by simp, by decide⟩

/-- C9: `stop` with no handle present issues no subsystem shutdown call,
leaves all handles absent, and its aggregate completion resolves without
error. -/
theorem stop_noop_when_idle (out : StopOutcomes) :
    stop initialState out =
      { state := initialState, events := [], resolved := true } := rfl

/-- C3: signal enablement follows the three-layer precedence of
`isSignalEnabled`: a non-nullish caller value decides (its value if a boolean,
always enabled if an options object); else a parseable boolean-string
environment flag decides; else the hard default applies.  In particular
(env enabled, caller `false`) resolves disabled, and the call sites pass the
hard defaults: tracing enabled, profiling disabled. -/
theorem isSignalEnabled_precedence (env : Env) (envVar : String) (dflt : Bool)
    (opts : Options) :
    (∀ b, isSignalEnabled env (.bool b) envVar dflt = b) ∧
    (∀ bag, isSignalEnabled env (.obj bag) envVar dflt = true) ∧
    (∀ option b,
      (option = SignalSetting.undef ∨ option = SignalSetting.null) →
      parseEnvBooleanString (getNonEmptyEnvVar env envVar) = some b →
      isSignalEnabled env option envVar dflt = b) ∧
    (∀ option,
      (option = SignalSetting.undef ∨ option = SignalSetting.null) →
      parseEnvBooleanString (getNonEmptyEnvVar env envVar) = Option.none →
      isSignalEnabled env option envVar dflt = dflt) ∧
    (parseEnvBooleanString (getNonEmptyEnvVar env envVar) = some true →
      isSignalEnabled env (.bool false) envVar dflt = false) ∧
    tracingEnabled env opts =
      isSignalEnabled env opts.tracing "SPLUNK_TRACING_ENABLED" true ∧
    profilingEnabled env opts =
      isSignalEnabled env opts.profiling "SPLUNK_PROFILER_ENABLED" false := by
  refine ⟨fun b => rfl, fun bag => rfl, ?_, ?_, fun _ => rfl, rfl, rfl⟩
  · rintro option b (rfl | rfl) hp <;> simp [isSignalEnabled, hp]
  · rintro option (rfl | rfl) hp <;> simp [isSignalEnabled, hp]

/-- Witness for C3: with the environment flag set to "true" and the caller
passing `false`, the signal resolves disabled. -/
theorem isSignalEnabled_precedence_witness :
    isSignalEnabled allTrueEnv (.bool false) "SPLUNK_TRACING_ENABLED" true =
      false :=
  (isSignalEnabled_precedence allTrueEnv "SPLUNK_TRACING_ENABLED" true
    {}).2.2.2.2.1 (by decide)

/-- C4: an options object containing a top-level key outside the recognized
set makes `start` (from the clean state) throw the unrecognized-option error;
the error result means no subsystem was started, so all three handles remain
absent. -/
theorem start_rejects_unrecognized_key (env : Env) (ext : Externals)
    (opts : Options)
    (hex : ∃ kv ∈ opts.extraKeys, kv.1 ∉ recognizedKeys) :
    ∃ key, key ∉ allowedRestKeys ∧
      start env ext initialState opts = .error (.extraneousProperty key) := by
  obtain ⟨kv, hmem, hnot⟩ := hex
  have hbag : kv ∈ opts.restBag := by
    unfold Options.restBag
    simp [hmem]
  have hsub : kv.1 ∉ allowedRestKeys := by
    intro hk
    apply hnot
    simp only [allowedRestKeys, List.mem_cons, List.not_mem_nil, or_false] at hk
    simp only [recognizedKeys, List.mem_cons, List.not_mem_nil, or_false]
    tauto
  have hpred : (fun p => !(allowedRestKeys.contains p.1)) kv = true := by
    simpa using hsub
  have hsome : (opts.restBag.find? fun p => !(allowedRestKeys.contains p.1)).isSome := by
    rw [List.find?_isSome]
    exact ⟨kv, hbag, hpred⟩
  obtain ⟨q, hq⟩ := Option.isSome_iff_exists.mp hsome
  have hpq := List.find?_some hq
  have hkey : extraneousKey opts.restBag allowedRestKeys = some q.1 := by
    unfold extraneousKey
    rw [hq]
    rfl
  refine ⟨q.1, ?_, ?_⟩
  · simpa using hpq
  · simp [start, initialState, hkey]

/-- Witness for C4: the key `foo` triggers the extraneous-property error. -/
theorem start_rejects_unrecognized_key_witness :
    ∃ key, key ∉ allowedRestKeys ∧
      start emptyEnv noExternals initialState { extraKeys := [("foo", "bar")] } =
        .error (.extraneousProperty key) :=
  start_rejects_unrecognized_key emptyEnv noExternals
    { extraKeys := [("foo", "bar")] }
    ⟨("foo", "bar"), by simp, by decide⟩

/-- C2: when profiling resolves enabled and the materialized defaults of the
same merged profiling bag have memory profiling enabled, and the caller left
`metrics` unconfigured with the `SPLUNK_METRICS_ENABLED` flag unset, metrics
starts (its default was raised); when profiling resolves disabled, the
default stays disabled and metrics does not start. -/
theorem start_memory_profiling_raises_metrics (env : Env) (ext : Externals)
    (opts : Options) (hclean : opts.extraKeys = [])
    (hcaller : opts.metrics = SignalSetting.undef ∨
      opts.metrics = SignalSetting.null)
    (henv : parseEnvBooleanString (getNonEmptyEnvVar env "SPLUNK_METRICS_ENABLED") =
      Option.none) :
    (profilingEnabled env opts = true →
      ext.memoryProfilingEnabled (mergedProfilingBag opts) = true →
      ∃ r, start env ext initialState opts = .ok r ∧
        r.state.metrics = some () ∧
        Event.startMetrics (mergedMetricsBag opts) ∈ r.events) ∧
    (profilingEnabled env opts = false →
      ∃ r, start env ext initialState opts = .ok r ∧
        r.state.metrics = Option.none ∧
        ∀ bag, Event.startMetrics bag ∉ r.events) := by
  have hok := start_ok_of_clean env ext opts (extraneousKey_restBag_clean opts hclean)
  constructor
  · intro hp hm
    have hdef : metricsEnabledByDefault env ext opts = true := by
      simp [metricsEnabledByDefault, hp, hm]
    have hme : metricsEnabled env ext opts = true := by
      rcases hcaller with hc | hc <;>
        simp [metricsEnabled, isSignalEnabled, hc, henv, hdef]
    refine ⟨_, hok, ?_, ?_⟩
    · simp [startedState, hme]
    · simp [startEvents, preMeterEvents, hme]
  · intro hp
    have hdef : metricsEnabledByDefault env ext opts = false := by
      simp [metricsEnabledByDefault, hp]
    have hme : metricsEnabled env ext opts = false := by
      rcases hcaller with hc | hc <;>
        simp [metricsEnabled, isSignalEnabled, hc, henv, hdef]
    refine ⟨_, hok, ?_, ?_⟩
    · simp [startedState, hme]
    · intro bag
      simp [startEvents, preMeterEvents, meterEvents, hme, hp]

/-- Witness for C2: with `SPLUNK_PROFILER_ENABLED=true`, memory profiling
materialized enabled, caller metrics unset and the metrics flag unset,
profiling resolves enabled; the claim then yields a successful start whose
metrics handle is set. -/
theorem start_memory_profiling_raises_metrics_witness :
    (profilingEnabled profilerEnv {} = true →
      memExternals.memoryProfilingEnabled (mergedProfilingBag {}) = true →
      ∃ r, start profilerEnv memExternals initialState {} = .ok r ∧
        r.state.metrics = some () ∧
        Event.startMetrics (mergedMetricsBag {}) ∈ r.events) ∧
    (profilingEnabled profilerEnv {} = false →
      ∃ r, start profilerEnv memExternals initialState {} = .ok r ∧
        r.state.metrics = Option.none ∧
        ∀ bag, Event.startMetrics bag ∉ r.events) :=
  start_memory_profiling_raises_metrics profilerEnv memExternals {} rfl
    (Or.inl rfl) (by decide)

/-- C5: every `stop` call clears all three handles before the aggregate
completion settles; when a started subsystem's stop operation fails the
aggregate completion rejects, yet a subsequent `start` (with valid options)
succeeds — no false re-entrant error. -/
theorem stop_clears_handles (st : RunningState) (out : StopOutcomes)
    (env : Env) (ext : Externals) (opts : Options)
    (hclean : opts.extraKeys = []) :
    (stop st out).state = initialState ∧
    (((st.metrics.isSome && out.metricsFails) ||
      (st.tracing.isSome && out.tracingFails) ||
      (st.profiling.isSome && out.profilingFails)) = true →
      (stop st out).resolved = false) ∧
    (start env ext (stop st out).state opts).isOk = true := by
  refine ⟨rfl, ?_, ?_⟩
  · intro h
    simp [stop, h]
  · have h := start_ok_of_clean env ext opts (extraneousKey_restBag_clean opts hclean)
    show (start env ext initialState opts).isOk = true
    rw [h]
    rfl

/-- Witness for C5: all three subsystems were running and all three stop
operations fail — the handles are still cleared, the aggregate rejects, and a
subsequent `start` succeeds. -/
theorem stop_clears_handles_witness :
    (stop fullState ⟨true, true, true⟩).state = initialState ∧
    (((fullState.metrics.isSome && true) ||
      (fullState.tracing.isSome && true) ||
      (fullState.profiling.isSome && true)) = true →
      (stop fullState ⟨true, true, true⟩).resolved = false) ∧
    (start emptyEnv noExternals (stop fullState ⟨true, true, true⟩).state {}).isOk =
      true :=
  stop_clears_handles fullState ⟨true, true, true⟩ emptyEnv noExternals {} rfl

/-- Position of a subsystem-start event in the order `start` must follow:
profiling first, then tracing, then metrics; other events carry no rank. -/
def startPhaseRank : Event → Option Nat
  | .startProfiling _ => some 0
  | .startTracing _ => some 1
  | .startMetrics _ => some 2
  | _ => Option.none

/-- Position of a subsystem-stop event in the order `stop` must follow:
metrics first, then tracing, then profiling; other events carry no rank. -/
def stopPhaseRank : Event → Option Nat
  | .stopMetrics => some 0
  | .stopTracing => some 1
  | .stopProfiling => some 2
  | _ => Option.none

/-- Meter-provider propagation events carry no start-phase rank. -/
theorem filterMap_startPhaseRank_meter (l : List Nat) (real : Bool) :
    ((l.map fun i => Event.setMeterProvider i real).filterMap startPhaseRank) = [] := by
  induction l with
  | nil => rfl
  | cons a t ih => simp [startPhaseRank, ih]

/-- C6: within every successful `start` the subsystem starts occur in the
fixed order profiling, tracing, metrics (each present iff its signal resolved
enabled), and every `stop` issues its shutdown calls in the fixed order
metrics, tracing, profiling (each present iff its handle was); both rank
sequences are therefore sorted. -/
theorem lifecycle_fixed_order (env : Env) (ext : Externals) (st : RunningState)
    (opts : Options) (r : StartResult) (st2 : RunningState) (out : StopOutcomes)
    (h : start env ext st opts = .ok r) :
    r.events.filterMap startPhaseRank =
      ((if profilingEnabled env opts then [0] else []) ++
       (if tracingEnabled env opts then [1] else []) ++
       (if metricsEnabled env ext opts then [2] else [])) ∧
    (stop st2 out).events.filterMap stopPhaseRank =
      ((if st2.metrics.isSome then [0] else []) ++
       (if st2.tracing.isSome then [1] else []) ++
       (if st2.profiling.isSome then [2] else [])) ∧
    (r.events.filterMap startPhaseRank).Sorted (· ≤ ·) ∧
    ((stop st2 out).events.filterMap stopPhaseRank).Sorted (· ≤ ·) := by
  have hr := start_ok_inversion env ext st opts r h
  subst hr
  have h1 : (startEvents env ext opts).filterMap startPhaseRank =
      ((if profilingEnabled env opts then [0] else []) ++
       (if tracingEnabled env opts then [1] else []) ++
       (if metricsEnabled env ext opts then [2] else [])) := by
    simp only [startEvents, preMeterEvents, meterEvents, List.filterMap_append,
      filterMap_startPhaseRank_meter, List.append_nil]
    split_ifs <;> simp [startPhaseRank]
  have h2 : (stop st2 out).events.filterMap stopPhaseRank =
      ((if st2.metrics.isSome then [0] else []) ++
       (if st2.tracing.isSome then [1] else []) ++
       (if st2.profiling.isSome then [2] else [])) := by
    simp only [stop, List.filterMap_append]
    split_ifs <;> simp [stopPhaseRank]
  refine ⟨h1, h2, ?_, ?_⟩
  · rw [h1]
    split_ifs <;> simp [List.Sorted]
  · rw [h2]
    split_ifs <;> simp [List.Sorted]

/-- Witness for C6: a run from the clean state with default options (tracing
only) and a stop from the fully-running state. -/
theorem lifecycle_fixed_order_witness :
    ([Event.setLogger DiagLogLevel.INFO, Event.startTracing [],
        Event.setMeterProvider 7 false] : List Event).filterMap startPhaseRank =
      ((if profilingEnabled emptyEnv {} then [0] else []) ++
       (if tracingEnabled emptyEnv {} then [1] else []) ++
       (if metricsEnabled emptyEnv memExternals {} then [2] else [])) ∧
    (stop fullState ⟨false, false, false⟩).events.filterMap stopPhaseRank =
      ((if fullState.metrics.isSome then [0] else []) ++
       (if fullState.tracing.isSome then [1] else []) ++
       (if fullState.profiling.isSome then [2] else [])) ∧
    (([Event.setLogger DiagLogLevel.INFO, Event.startTracing [],
        Event.setMeterProvider 7 false] : List Event).filterMap
        startPhaseRank).Sorted (· ≤ ·) ∧
    ((stop fullState ⟨false, false, false⟩).events.filterMap
        stopPhaseRank).Sorted (· ≤ ·) :=
  lifecycle_fixed_order emptyEnv memExternals initialState {}
    { state := { metrics := Option.none, profiling := Option.none, tracing := some () }
      events := [Event.setLogger DiagLogLevel.INFO, Event.startTracing [],
        Event.setMeterProvider 7 false] }
    fullState ⟨false, false, false⟩ rfl

/-- C7: the log level is resolved as the explicit `logLevel` option if
supplied, else the level parsed from `OTEL_LOG_LEVEL` (with the subsystem
default); when it resolves to `NONE` no diagnostic logger is installed, and
otherwise the console diagnostic logger is installed at that level as the very
first action — before any subsystem is started. -/
theorem start_logLevel_resolution (env : Env) (ext : Externals)
    (st : RunningState) (opts : Options) (r : StartResult) (l : LogLevel)
    (h : start env ext st opts = .ok r) :
    (opts.logLevel = some l → resolveLogLevel env opts = toDiagLogLevel l) ∧
    (opts.logLevel = Option.none →
      resolveLogLevel env opts =
        parseLogLevel (getNonEmptyEnvVar env "OTEL_LOG_LEVEL")) ∧
    (resolveLogLevel env opts = DiagLogLevel.NONE →
      ∀ lvl, Event.setLogger lvl ∉ r.events) ∧
    (resolveLogLevel env opts ≠ DiagLogLevel.NONE →
      ∃ rest, r.events = Event.setLogger (resolveLogLevel env opts) :: rest) := by
  have hr := start_ok_inversion env ext st opts r h
  subst hr
  refine ⟨?_, ?_, ?_, ?_⟩
  · intro hll
    simp [resolveLogLevel, hll]
  · intro hll
    simp [resolveLogLevel, hll]
  · intro hnone lvl
    simp only [startEvents, preMeterEvents, meterEvents, hnone, if_pos rfl,
      List.nil_append, List.mem_append]
    rintro (h1 | h2)
    · rcases h1 with (h1 | h1) | h1 <;> split at h1 <;> simp_all
    · simp only [List.mem_map] at h2
      obtain ⟨i, _, hi⟩ := h2
      exact Event.noConfusion hi
  · intro hne
    refine ⟨(if profilingEnabled env opts then
        [Event.startProfiling (mergedProfilingBag opts)] else []) ++
      (if tracingEnabled env opts then
        [Event.startTracing (mergedTracingBag opts)] else []) ++
      (if metricsEnabled env ext opts then
        [Event.startMetrics (mergedMetricsBag opts)] else []) ++
      meterEvents env ext, ?_⟩
    simp [startEvents, preMeterEvents, hne]

/-- Witness for C7: with `logLevel` explicitly `none`, the resolution yields
`NONE` and the trace of the successful start holds no logger event. -/
theorem start_logLevel_resolution_witness :
    ({ logLevel := some LogLevel.none : Options}.logLevel = some LogLevel.none →
      resolveLogLevel emptyEnv { logLevel := some LogLevel.none } =
        toDiagLogLevel LogLevel.none) ∧
    ({ logLevel := some LogLevel.none : Options}.logLevel = Option.none →
      resolveLogLevel emptyEnv { logLevel := some LogLevel.none } =
        parseLogLevel (getNonEmptyEnvVar emptyEnv "OTEL_LOG_LEVEL")) ∧
    (resolveLogLevel emptyEnv { logLevel := some LogLevel.none } =
        DiagLogLevel.NONE →
      ∀ lvl, Event.setLogger lvl ∉ [Event.startTracing []]) ∧
    (resolveLogLevel emptyEnv { logLevel := some LogLevel.none } ≠
        DiagLogLevel.NONE →
      ∃ rest, [Event.startTracing []] =
        Event.setLogger (resolveLogLevel emptyEnv { logLevel := some LogLevel.none }) ::
          rest) :=
  start_logLevel_resolution emptyEnv noExternals initialState
    { logLevel := some LogLevel.none }
    { state := { metrics := Option.none, profiling := Option.none, tracing := some () }
      events := [Event.startTracing []] }
    LogLevel.none rfl

/-- C8: every successful `start`, regardless of which signals were enabled,
ends by resolving the independent environment-gated boolean
`SPLUNK_INSTRUMENTATION_METRICS_ENABLED` (default false) and injecting the
chosen meter provider (real iff the flag resolved true) into every loaded
instrumentation, after all the conditional signal starts. -/
theorem start_meter_propagation (env : Env) (ext : Externals)
    (st : RunningState) (opts : Options) (r : StartResult)
    (h : start env ext st opts = .ok r) :
    (∀ e ∈ preMeterEvents env ext opts, ∀ i real,
      e ≠ Event.setMeterProvider i real) ∧
    r.events =
      preMeterEvents env ext opts ++
        ext.instrumentations.map (fun i =>
          Event.setMeterProvider i
            (getEnvBoolean env "SPLUNK_INSTRUMENTATION_METRICS_ENABLED" false)) := by
  have hr := start_ok_inversion env ext st opts r h
  subst hr
  refine ⟨?_, rfl⟩
  intro e he i real
  simp only [preMeterEvents, List.mem_append] at he
  rcases he with ((h1 | h1) | h1) | h1 <;> split at h1 <;> simp_all

/-- Witness for C8: with the flag set true and one loaded instrumentation,
the trace ends with the injection of the real meter provider. -/
theorem start_meter_propagation_witness :
    (∀ e ∈ preMeterEvents instrEnv memExternals {}, ∀ i real,
      e ≠ Event.setMeterProvider i real) ∧
    ([Event.setLogger DiagLogLevel.INFO, Event.startTracing [],
        Event.setMeterProvider 7 true] : List Event) =
      preMeterEvents instrEnv memExternals {} ++
        memExternals.instrumentations.map (fun i =>
          Event.setMeterProvider i
            (getEnvBoolean instrEnv "SPLUNK_INSTRUMENTATION_METRICS_ENABLED"
              false)) :=
  start_meter_propagation instrEnv memExternals initialState {}
    { state := { metrics := Option.none, profiling := Option.none, tracing := some () }
      events := [Event.setLogger DiagLogLevel.INFO, Event.startTracing [],
        Event.setMeterProvider 7 true] }
    rfl

end SplunkOtel
